import Mathlib

/-!
# Verification of the Indigo LightTools plugin conversion core

A shallow embedding, in Lean 4, of the state-conversion core of
`LightTools/Contents/Server Plugin/plugin.py`:

* the scale converter (`_get_scale_params`, `_variable_to_brightness`,
  `_brightness_to_variable`),
* the relay-pair quantizer (`_relay_states_to_level`, `_level_to_relay_states`),
* the scene snapshot engine (`_get_device_scene_state`, `_check_scene_match`,
  `_apply_scene_state`),
* the flash sequencer (`_flash_device_thread`),
* the duplicated `deviceStartComm` class-body bindings.

Modelling conventions:

* Python `float` values are modelled as exact rationals (`ℚ`).  `round(x)` and
  `round(x, n)` are modelled as exact round-half-to-even (`pyRound`,
  `pyRoundDp`); all the values exercised here are small decimals, where the
  idealisation agrees with IEEE-754 behaviour.
* Python strings flowing through `float(...)`/`str(...)` are modelled as Lean
  `String`s.  `pyFloatOfString` models `float(s)` on finite decimal literals
  (optional sign, digits, optional fraction and exponent); `inf`/`nan`,
  underscores and surrounding whitespace are outside the model.  `renderInt`
  and `renderFixed` model `str(...)` of the integers and of the
  `round(x, ndigits)` results that `_brightness_to_variable` produces.
* Host (`indigo`) lookups are modelled by an explicit `Env`; `json.loads` is
  modelled by an explicit function argument of type
  `String → Option (List (SnapKey × SavedItem))`, `none` meaning the string is
  not parsable as JSON.  Side effects (state updates, variable writes, log
  lines) are collected in an explicit `Effect` trace; log messages are kept as
  short constant tags rather than the full interpolated f-strings.
-/

/-! ## Python `round`: round-half-to-even (banker's rounding) -/

/-- Python's built-in `round(x)` on a real value: round to the nearest integer,
ties to the even integer. -/
def pyRound (q : ℚ) : ℤ :=
  if q - ⌊q⌋ < 1/2 then ⌊q⌋
  else if 1/2 < q - ⌊q⌋ then ⌊q⌋ + 1
  else if ⌊q⌋ % 2 = 0 then ⌊q⌋ else ⌊q⌋ + 1

/-- Python's `round(x, n)` for `n ≥ 0`: round to the nearest multiple of
`10⁻ⁿ`, ties to even (exact-decimal idealisation). -/
def pyRoundDp (q : ℚ) (n : ℕ) : ℚ :=
  (pyRound (q * 10 ^ n) : ℚ) / 10 ^ n

/-! ## Decimal literals: parsing (`float(s)`) and rendering (`str(x)`) -/

/-- Numeric value of a decimal digit character. -/
def digitVal (c : Char) : ℕ := c.toNat - 48

/-- The decimal digit character for `d ∈ [0,9]`. -/
def digitChr (d : ℕ) : Char := Char.ofNat (48 + d)

/-- Value of a big-endian string of decimal digit characters. -/
def parseDigits (l : List Char) : ℕ :=
  l.foldl (fun a c => 10 * a + digitVal c) 0

/-- Little-endian base-10 digits, by fuel recursion so that it reduces in the
kernel; `natDigitsLE_eq` identifies it with `Nat.digits 10`. -/
def digitsFuel : ℕ → ℕ → List ℕ
  | _, 0 => []
  | 0, _ + 1 => []
  | f + 1, m + 1 => (m + 1) % 10 :: digitsFuel f ((m + 1) / 10)

/-- Little-endian base-10 digits of a natural number. -/
def natDigitsLE (m : ℕ) : List ℕ := digitsFuel m m

/-- Decimal rendering of a natural number (big-endian, no sign). -/
def renderNat (m : ℕ) : List Char :=
  if m = 0 then ['0'] else ((natDigitsLE m).map digitChr).reverse

/-- Decimal rendering of an integer: models Python `str(k)` for `k : int`. -/
def renderInt (k : ℤ) : List Char :=
  if k < 0 then '-' :: renderNat k.natAbs else renderNat k.natAbs

/-- The fraction part of `a / 10^n` as `n` little-endian digits. -/
def fracDigitsLE (a n : ℕ) : List ℕ :=
  natDigitsLE (a % 10 ^ n) ++
    List.replicate (n - (natDigitsLE (a % 10 ^ n)).length) 0

/-- The fraction digits with the low-order (string-trailing) zeros removed. -/
def fracStripped (a n : ℕ) : List ℕ := (fracDigitsLE a n).dropWhile (· = 0)

/-- The fraction digits as printed: trailing zeros stripped, but at least one
digit kept. -/
def fracRender (a n : ℕ) : List ℕ :=
  if (fracStripped a n).isEmpty then [0] else fracStripped a n

/-- Models Python `str(x)` for the float `x = k / 10^n` (`n ≥ 1`), as produced
by `round(_, n)`: integer part, a dot, then the `n` fraction digits with
trailing zeros stripped but at least one digit kept (`str(1.0) = "1.0"`,
`str(0.7) = "0.7"`). -/
def renderFixed (k : ℤ) (n : ℕ) : List Char :=
  (if k < 0 then ['-'] else []) ++ renderNat (k.natAbs / 10 ^ n) ++
    '.' :: ((fracRender k.natAbs n).map digitChr).reverse

/-- Consume an optional leading sign; returns (isNegative, rest). -/
def parseSign (l : List Char) : Bool × List Char :=
  match l with
  | [] => (false, [])
  | c :: t =>
    if c = '-' then (true, t)
    else if c = '+' then (false, t)
    else (false, c :: t)

/-- Consume the mantissa `digits[.digits]` (at least one digit overall).
Returns `(m, d, rest)` where the mantissa's value is `m / 10^d`. -/
def parseMantissa (l : List Char) : Option (ℕ × ℕ × List Char) :=
  if (l.dropWhile Char.isDigit).head? = some '.' then
    if (l.takeWhile Char.isDigit).isEmpty &&
        ((l.dropWhile Char.isDigit).tail.takeWhile Char.isDigit).isEmpty then none
    else some
      (parseDigits (l.takeWhile Char.isDigit) *
          10 ^ ((l.dropWhile Char.isDigit).tail.takeWhile Char.isDigit).length +
        parseDigits ((l.dropWhile Char.isDigit).tail.takeWhile Char.isDigit),
        ((l.dropWhile Char.isDigit).tail.takeWhile Char.isDigit).length,
        (l.dropWhile Char.isDigit).tail.dropWhile Char.isDigit)
  else
    if (l.takeWhile Char.isDigit).isEmpty then none
    else some (parseDigits (l.takeWhile Char.isDigit), 0, l.dropWhile Char.isDigit)

/-- Consume an optional exponent `[eE][+-]digits`; returns it and the rest. -/
def parseExponent (l : List Char) : Option (ℤ × List Char) :=
  if l.head? = some 'e' ∨ l.head? = some 'E' then
    if ((parseSign l.tail).2.takeWhile Char.isDigit).isEmpty then none
    else some
      ((if (parseSign l.tail).1 then
          -(parseDigits ((parseSign l.tail).2.takeWhile Char.isDigit) : ℤ)
        else (parseDigits ((parseSign l.tail).2.takeWhile Char.isDigit) : ℤ)),
        (parseSign l.tail).2.dropWhile Char.isDigit)
  else some (0, l)

/-- The rational value of a parsed literal `(neg, m, d, e)`:
`±m / 10^d · 10^e`. -/
def ratOfRepr (neg : Bool) (m d : ℕ) (e : ℤ) : ℚ :=
  (if neg then -(m : ℚ) else (m : ℚ)) / 10 ^ d * 10 ^ e

/-- Models Python `float(s)` on finite decimal literals: `none` when `s` is
not parsable (`ValueError`), otherwise the exact rational value. -/
def pyFloatOfString (s : String) : Option ℚ :=
  match parseMantissa (parseSign s.data).2 with
  | none => none
  | some (m, d, rest) =>
    match parseExponent rest with
    | none => none
    | some (e, rest2) =>
      if rest2.isEmpty then some (ratOfRepr (parseSign s.data).1 m d e)
      else none

/-! ### Digit characters -/

/-! ### `renderNat` and `parseDigits` -/

/-! ### Stripping trailing zeros of the fraction -/

/-! ### Parsing inverts rendering -/

/-! ## The scale converter (`plugin.py` lines 88–162) -/

/-- `_get_scale_params` (lines 88–113), applied to the device's `scaleMin` and
`scaleMax` plugin-prop strings (whose defaults at the call site are `"0"` and
`"100"`).  An unparsable value (`ValueError`) or `min >= max` yields the
default `(0, 100, non-float)`; otherwise `isFloat` is true iff either string
contains a decimal point or the range is at most 10. -/
def get_scale_params (minStr maxStr : String) : ℚ × ℚ × Bool :=
  match pyFloatOfString minStr, pyFloatOfString maxStr with
  | some scale_min, some scale_max =>
    if scale_min ≥ scale_max then (0, 100, false)
    else
      (scale_min, scale_max,
        (minStr.data.contains '.' || maxStr.data.contains '.') ||
          decide (scale_max - scale_min ≤ 10))
  | _, _ => (0, 100, false)

/-- `_variable_to_brightness` (lines 115–138): parse the variable string,
clamp into `[scale_min, scale_max]`, rescale into `[0,100]` and round.
Returns `(brightness, was_clamped, clamped_value)`; `(none, false, none)` when
the string is not a number. -/
def variable_to_brightness (var_value : String) (scale_min scale_max : ℚ) :
    Option ℤ × Bool × Option ℚ :=
  match pyFloatOfString var_value with
  | none => (none, false, none)
  | some v =>
    if v < scale_min then
      (some (pyRound (((scale_min - scale_min) / (scale_max - scale_min)) * 100)),
        true, some scale_min)
    else if v > scale_max then
      (some (pyRound (((scale_max - scale_min) / (scale_max - scale_min)) * 100)),
        true, some scale_max)
    else
      (some (pyRound (((v - scale_min) / (scale_max - scale_min)) * 100)),
        false, some v)

/-- The rescaled value `(clamped brightness)/100 * range + min` computed at
line 147 (after the line-143 clamp of `brightness` into `[0,100]`). -/
def scaled_value (brightness : ℤ) (scale_min scale_max : ℚ) : ℚ :=
  ((max 0 (min 100 brightness) : ℤ) : ℚ) / 100 * (scale_max - scale_min) + scale_min

/-- `_brightness_to_variable` (lines 140–162): clamp the level into `[0,100]`,
rescale into `[min,max]`, and render — `str(round(value, 2))` when the scale
is float with range ≤ 10 (the `≤ 1` and `≤ 10` branches of the source
coincide), `str(round(value, 1))` for larger float ranges, and
`str(int(round(value)))` for integer scales. -/
def brightness_to_variable (brightness : ℤ) (scale_min scale_max : ℚ)
    (is_float_scale : Bool) : String :=
  if is_float_scale then
    if scale_max - scale_min ≤ 1 then
      String.mk (renderFixed (pyRound (scaled_value brightness scale_min scale_max * 10 ^ 2)) 2)
    else if scale_max - scale_min ≤ 10 then
      String.mk (renderFixed (pyRound (scaled_value brightness scale_min scale_max * 10 ^ 2)) 2)
    else
      String.mk (renderFixed (pyRound (scaled_value brightness scale_min scale_max * 10 ^ 1)) 1)
  else
    String.mk (renderInt (pyRound (scaled_value brightness scale_min scale_max)))

/-! ## The relay-pair quantizer (`plugin.py` lines 515–546) -/

/-- `_relay_states_to_level` (lines 515–524): the fixed asymmetric table. -/
def relay_states_to_level (relay1_on relay2_on : Bool) : ℤ :=
  if ¬relay1_on ∧ ¬relay2_on then 0
  else if relay1_on ∧ ¬relay2_on then 33
  else if ¬relay1_on ∧ relay2_on then 66
  else 100

/-- The second half of `_level_to_relay_states` (lines 538–546): the inverse
relay table applied to a rounded level. -/
def relay_states_of_rounded (rounded_level : ℤ) : Bool × Bool :=
  if rounded_level = 0 then (false, false)
  else if rounded_level = 33 then (true, false)
  else if rounded_level = 66 then (false, true)
  else (true, true)

/-- `_level_to_relay_states` (lines 526–546): round to the nearest canonical
level with the breakpoints 16/49/83, then apply the inverse table. -/
def level_to_relay_states (level : ℤ) : Bool × Bool :=
  relay_states_of_rounded
    (if level ≤ 16 then 0 else if level ≤ 49 then 33 else if level ≤ 83 then 66 else 100)

/-- The quantisation step of the string `_brightness_to_variable` renders:
one unit for integer scales, `0.01` for float scales with range at most 10,
`0.1` for larger float ranges. -/
def precStep (is_float_scale : Bool) (range : ℚ) : ℚ :=
  if is_float_scale then (if range ≤ 10 then 1/100 else 1/10) else 1

/-! ## Host model: devices, variables, effects -/

/-- A value stored in a device's `states` dictionary or in a scene record. -/
inductive SceneVal
  | str (s : String)
  | int (n : ℤ)
  | rat (q : ℚ)
  | bool (b : Bool)
deriving DecidableEq

/-- The slice of an `indigo` device object that the modelled code reads. -/
structure IDevice where
  id : ℤ
  deviceTypeId : String
  pluginProps : String → Option String
  className : String
  hasBrightnessAttr : Bool
  brightness : ℤ
  onState : Bool
  hvacMode : ℤ
  fanMode : ℤ
  coolSetpoint : ℚ
  heatSetpoint : ℚ
  speedLevel : ℤ
  hasSpeedLevelAttr : Bool
  states : List (String × SceneVal)

/-- The host state read by the plugin: `indigo.devices` and
`indigo.variables` (a variable is read only through its string value). -/
structure Env where
  devices : ℤ → Option IDevice
  vars : ℤ → Option String

/-- One host-visible side effect of the modelled code.  `log` entries are
kept as short constant tags in place of the interpolated f-strings. -/
inductive Effect
  | setBrightness (devId : ℤ) (value : ℤ)
  | setBrightnessVal (devId : ℤ) (value : SceneVal)
  | turnOn (devId : ℤ)
  | turnOff (devId : ℤ)
  | setHvacMode (devId : ℤ) (value : ℤ)
  | setFanMode (devId : ℤ) (value : ℤ)
  | setCoolSetpoint (devId : ℤ) (value : ℚ)
  | setHeatSetpoint (devId : ℤ) (value : ℚ)
  | setSpeedLevel (devId : ℤ) (value : ℤ)
  | updateVariable (varId : ℤ) (value : String)
  | updateState (devId : ℤ) (key : String) (value : SceneVal)
  | replacePluginProps (devId : ℤ) (flag : String)
  | setCacheVar (key : String) (value : String)
  | setCacheBrightness (devId : ℤ) (value : ℤ)
  | addFlashing (devId : ℤ)
  | discardFlashing (devId : ℤ)
  | delFlashThread (threadId : ℕ)
  | delFlashStopEvent (threadId : ℕ)
  | log (msg : String)
deriving DecidableEq

/-- Whether an effect writes host or plugin state (everything except logs). -/
def Effect.isWrite : Effect → Bool
  | .log _ => false
  | _ => true

/-! ## The scene snapshot engine (`plugin.py` lines 568–955) -/

/-- `_get_device_scene_state` (lines 568–607): dispatch on the runtime class
name; otherwise detect a blind by a case-insensitive `position` state key. -/
inductive DevSceneState
  | empty
  | dimmer (brightness : ℤ) (onState : Bool)
  | relay (onState : Bool)
  | thermostat (hvacMode fanMode : ℤ) (coolSetpoint heatSetpoint : ℚ)
  | fan (speedLevel : ℤ) (onState : Bool)
  | blind (position : SceneVal)
deriving DecidableEq

def get_device_scene_state (dev : IDevice) : DevSceneState :=
  if dev.className = "DimmerDevice" then .dimmer dev.brightness dev.onState
  else if dev.className = "RelayDevice" then .relay dev.onState
  else if dev.className = "ThermostatDevice" then
    .thermostat dev.hvacMode dev.fanMode dev.coolSetpoint dev.heatSetpoint
  else if dev.className = "SpeedControlDevice" then
    .fan (if dev.hasSpeedLevelAttr then dev.speedLevel else 0) dev.onState
  else
    match dev.states.find? (fun kv => kv.1.toLower = "position") with
    | some kv => .blind kv.2
    | none => .empty

/-- A JSON-decoded snapshot record.  `saveSceneState` only ever writes the
six well-typed shapes; `other` stands for a record whose `type` tag is none
of the known ones (it carries no further fields in the model). -/
inductive SavedItem
  | dimmer (brightness : ℤ) (onState : Bool)
  | relay (onState : Bool)
  | thermostat (hvacMode fanMode : ℤ) (coolSetpoint heatSetpoint : ℚ)
  | fan (speedLevel : ℤ) (onState : Bool)
  | blind (position : SceneVal)
  | variableValue (value : String)
  | other (typeName : String)
deriving DecidableEq

/-- The record's `'type'` tag. -/
def savedTypeTag : SavedItem → String
  | .dimmer .. => "dimmer"
  | .relay .. => "relay"
  | .thermostat .. => "thermostat"
  | .fan .. => "fan"
  | .blind .. => "blind"
  | .variableValue _ => "variable"
  | .other s => s

/-- `current_state.get('type')` for a live capture. -/
def sceneTypeTag : DevSceneState → Option String
  | .empty => none
  | .dimmer .. => some "dimmer"
  | .relay .. => some "relay"
  | .thermostat .. => some "thermostat"
  | .fan .. => some "fan"
  | .blind .. => some "blind"

/-- A decoded snapshot key: `device_<id>`, `variable_<id>` (with `none` for a
suffix that is not an integer), or any other key (skipped by both loops). -/
inductive SnapKey
  | device (id : Option ℤ)
  | variableKey (id : Option ℤ)
  | otherKey (s : String)
deriving DecidableEq

/-- The decoded-snapshot type: what `json.loads` yields on the stored
`savedStates` string.  The modelled `json.loads` itself is passed in as a
function (`none` = the string raises `JSONDecodeError`). -/
def JsonLoads : Type := String → Option (List (SnapKey × SavedItem))

/-- The per-device comparison block of `_check_scene_match` (lines 842–870):
type tags must agree, then the type's fields are compared; a record with a
type tag that matches no known branch passes. -/
def scene_device_matches (saved : SavedItem) (current : DevSceneState) : Bool :=
  if some (savedTypeTag saved) ≠ sceneTypeTag current then false
  else
    match saved, current with
    | .dimmer b o, .dimmer b' o' => decide (b = b') && decide (o = o')
    | .relay o, .relay o' => decide (o = o')
    | .thermostat h f c he, .thermostat h' f' c' he' =>
      decide (h = h') && decide (f = f') && decide (c = c') && decide (he = he')
    | .fan s o, .fan s' o' => decide (s = s') && decide (o = o')
    | .blind p, .blind p' => decide (p = p')
    | _, _ => true

/-- The entry loop of `_check_scene_match` (lines 830–885). -/
def check_scene_items (env : Env) : List (SnapKey × SavedItem) → Bool × List Effect
  | [] => (true, [])
  | (k, saved) :: rest =>
    match k with
    | .device none => (false, [.log "warn: monitored device missing"])
    | .device (some did) =>
      match env.devices did with
      | none => (false, [.log "warn: monitored device missing"])
      | some dev =>
        if scene_device_matches saved (get_device_scene_state dev) then
          check_scene_items env rest
        else (false, [])
    | .variableKey none => (false, [.log "warn: monitored variable missing"])
    | .variableKey (some vid) =>
      match env.vars vid with
      | none => (false, [.log "warn: monitored variable missing"])
      | some v =>
        match saved with
        | .variableValue sv =>
          if sv = v then
            ((check_scene_items env rest).1,
              .log "debug: variable check" :: (check_scene_items env rest).2)
          else (false, [.log "debug: variable check"])
        | _ => (false, [.log "warn: monitored variable missing"])
    | .otherKey _ => check_scene_items env rest

/-- `_check_scene_match` (lines 815–889): empty stored string is "no
snapshot" (false, silent); an unparsable string logs the invalid-data error
and is false; otherwise every entry must match. -/
def check_scene_match (env : Env) (jsonLoads : JsonLoads) (scene_dev : IDevice) :
    Bool × List Effect :=
  if ((scene_dev.pluginProps "savedStates").getD "") = "" then (false, [])
  else
    match jsonLoads ((scene_dev.pluginProps "savedStates").getD "") with
    | none => (false, [.log "error: invalid saved state data"])
    | some items => check_scene_items env items

/-- The per-device replay block of `_apply_scene_state` (lines 912–936). -/
def apply_device_item (did : ℤ) (saved : SavedItem) : List Effect :=
  match saved with
  | .dimmer b _ => [.setBrightness did b]
  | .relay o => if o then [.turnOn did] else [.turnOff did]
  | .thermostat h f c he =>
    [.setHvacMode did h, .setFanMode did f, .setCoolSetpoint did c,
      .setHeatSetpoint did he]
  | .fan s _ => [.setSpeedLevel did s]
  | .blind p => [.setBrightnessVal did p]
  | _ => []

/-- The entry loop of `_apply_scene_state` (lines 905–952); each entry's
failure is logged and the loop continues. -/
def apply_scene_items (env : Env) : List (SnapKey × SavedItem) → List Effect
  | [] => []
  | (k, saved) :: rest =>
    (match k with
     | .device none => [.log "error applying device state"]
     | .device (some did) =>
       match env.devices did with
       | none => [.log "error applying device state"]
       | some _ => apply_device_item did saved
     | .variableKey none => [.log "error applying variable value"]
     | .variableKey (some vid) =>
       match env.vars vid with
       | none => [.log "error applying variable value"]
       | some _ =>
         match saved with
         | .variableValue v => [.log "info: setting variable", .updateVariable vid v]
         | _ => [.log "error applying variable value"]
     | .otherKey _ => []) ++ apply_scene_items env rest

/-- `_apply_scene_state` (lines 891–955): empty stored string logs a
"no saved state" warning and does nothing; an unparsable string logs the
invalid-data error and does nothing; otherwise each entry is replayed. -/
def apply_scene_state (env : Env) (jsonLoads : JsonLoads) (scene_dev : IDevice) :
    List Effect :=
  if ((scene_dev.pluginProps "savedStates").getD "") = "" then
    [.log "warn: no saved state"]
  else
    match jsonLoads ((scene_dev.pluginProps "savedStates").getD "") with
    | none => [.log "error: invalid saved state data"]
    | some items => apply_scene_items env items

/-! ## The flash sequencer (`plugin.py` lines 164–269) -/

/-- One captured entry of `original_states` (lines 169–188): a dimmer's
brightness and on-state, or a relay's on-state. -/
structure FlashOrig where
  devId : ℤ
  isDimmer : Bool
  brightness : ℤ
  onState : Bool
deriving DecidableEq

/-- Capture one device's original state (`hasattr(dev, 'brightness')`
dispatch); `none` when the device lookup fails. -/
def capture_original (env : Env) (dev_id : ℤ) : Option FlashOrig :=
  (env.devices dev_id).map fun d =>
    if d.hasBrightnessAttr then ⟨dev_id, true, d.brightness, d.onState⟩
    else ⟨dev_id, false, 0, d.onState⟩

/-- The capture loop (lines 169–188): failed lookups are logged and skipped.
`original_states` is a dict keyed by device id, so a duplicate id keeps its
first position (the re-assigned value is identical since the environment is
fixed). -/
def capture_originals (env : Env) : List ℤ → List FlashOrig × List Effect
  | [] => ([], [])
  | i :: rest =>
    match capture_original env i, capture_originals env rest with
    | none, (os, logs) => (os, .log "error getting original state" :: logs)
    | some o, (os, logs) => (o :: os.filter (fun x => x.devId ≠ i), logs)

/-- The flash-to-max pass (lines 206–218). -/
def flash_set_max (env : Env) (maxB : ℤ) : List FlashOrig → List Effect
  | [] => []
  | o :: rest =>
    (match env.devices o.devId with
     | none => [.log "error flashing device to max"]
     | some _ => if o.isDimmer then [.setBrightness o.devId maxB] else [.turnOn o.devId]) ++
      flash_set_max env maxB rest

/-- The flash-to-min pass (lines 225–237). -/
def flash_set_min (env : Env) (minB : ℤ) : List FlashOrig → List Effect
  | [] => []
  | o :: rest =>
    (match env.devices o.devId with
     | none => [.log "error flashing device to min"]
     | some _ => if o.isDimmer then [.setBrightness o.devId minB] else [.turnOff o.devId]) ++
      flash_set_min env minB rest

/-- The final restore pass (lines 245–259): each captured device is written
back to its original state. -/
def flash_restore (env : Env) : List FlashOrig → List Effect
  | [] => []
  | o :: rest =>
    (match env.devices o.devId with
     | none => [.log "error in final restore"]
     | some _ =>
       if o.isDimmer then [.setBrightness o.devId o.brightness]
       else if o.onState then [.turnOn o.devId] else [.turnOff o.devId]) ++
      flash_restore env rest

/-- The flash loop (lines 200–243).  `oracle t` is the value the `t`-th
stop-event query (an `is_set` check or a timed `wait`) returns, so
quantifying over `oracle` covers every cancellation schedule, including none.
The gap wait is skipped after the last iteration. -/
def flash_loop (env : Env) (origs : List FlashOrig) (maxB minB : ℤ)
    (oracle : ℕ → Bool) : ℕ → ℕ → List Effect
  | 0, _ => []
  | fuel + 1, t =>
    if oracle t then [.log "flash cancelled"]
    else
      flash_set_max env maxB origs ++
      (if oracle (t + 1) then [.log "flash cancelled during flash"]
       else
        flash_set_min env minB origs ++
        (if fuel = 0 then []
         else if oracle (t + 2) then [.log "flash cancelled during gap"]
         else flash_loop env origs maxB minB oracle fuel (t + 3)))

/-- The `finally` block (lines 261–269): discard the ids from the flashing
set and delete the thread's entries from the two bookkeeping maps when
present (`tidInThreads`/`tidInEvents` say whether `thread_id` is currently a
key of `flash_threads`/`flash_stop_events`). -/
def flash_cleanup (ids : List ℤ) (tid : ℕ) (tidInThreads tidInEvents : Bool) :
    List Effect :=
  ids.map Effect.discardFlashing ++
    (if tidInThreads then [.delFlashThread tid] else []) ++
    (if tidInEvents then [.delFlashStopEvent tid] else [])

/-- `_flash_device_thread` (lines 164–269).  Within the `try` body every
statement that can raise is wrapped in a per-device `try/except`, so the body
always runs to completion: capture, mark as flashing, flash loop, restore —
then the `finally` cleanup. -/
def flash_device_thread (env : Env) (tid : ℕ) (ids : List ℤ) (flash_count : ℕ)
    (flash_to_brightness flash_to_minimum : Option ℤ) (oracle : ℕ → Bool)
    (tidInThreads tidInEvents : Bool) : List Effect :=
  (capture_originals env ids).2 ++
    ids.map Effect.addFlashing ++
    flash_loop env (capture_originals env ids).1 (flash_to_brightness.getD 100)
      (flash_to_minimum.getD 0) oracle flash_count 0 ++
    flash_restore env (capture_originals env ids).1 ++
    flash_cleanup ids tid tidInThreads tidInEvents

/-! ## The two `deviceStartComm` bindings (`plugin.py` lines 967–1060 and
1468–1489) -/

/-- Models Python `int(s)` on decimal strings: an optional sign followed by
digits only. -/
def pyIntOfString (s : String) : Option ℤ :=
  if (parseSign s.data).2 ≠ [] ∧ (parseSign s.data).2.all Char.isDigit then
    some (if (parseSign s.data).1 then -(parseDigits (parseSign s.data).2 : ℤ)
      else (parseDigits (parseSign s.data).2 : ℤ))
  else none

/-- `_extract_var_id` (lines 60–78) on a string-valued prop: empty string is
`None`, otherwise `int(...)` with `ValueError` mapped to `None`.  (The
`Indigo.List` branch is outside the model: props here are strings.) -/
def extract_var_id (s : String) : Option ℤ :=
  if s = "" then none else pyIntOfString s

/-- `_get_scale_params(dev)` reads the `scaleMin`/`scaleMax` props with
defaults `"0"`/`"100"` (lines 91–92). -/
def dev_scale_params (dev : IDevice) : ℚ × ℚ × Bool :=
  get_scale_params ((dev.pluginProps "scaleMin").getD "0")
    ((dev.pluginProps "scaleMax").getD "100")

/-- The `f"{dev.id}_{var_id}"` cache key (line 998). -/
def cache_key (devId varId : ℤ) : String :=
  String.mk (renderInt devId ++ '_' :: renderInt varId)

/-- `_get_relay_states` (lines 505–513): both lookups inside one `try`; any
failure yields `(False, False)` and an error log. -/
def get_relay_states (env : Env) (relay1_id relay2_id : String) :
    (Bool × Bool) × List Effect :=
  match (pyIntOfString relay1_id).bind env.devices,
      (pyIntOfString relay2_id).bind env.devices with
  | some d1, some d2 => ((d1.onState, d2.onState), [])
  | _, _ => ((false, false), [.log "error getting relay states"])

/-- The first, shadowed `deviceStartComm` definition (lines 967–1060).

In the `myDimmerType` branch with an invalid (non-numeric) variable value the
source sets the variable to the minimum (lines 984–987) and then crashes at
line 999 with an `UnboundLocalError` (`var_value` was never assigned on that
path); the exception is caught by the branch's own `except` (line 1004), so
the trace is the update followed by the error log, with no cache seeding and
no `brightnessLevel` update. -/
def deviceStartComm_v1 (env : Env) (jsonLoads : JsonLoads) (dev : IDevice) :
    List Effect :=
  if dev.deviceTypeId = "myDimmerType" then
    match extract_var_id ((dev.pluginProps "variableId").getD "") with
    | none => []
    | some var_id =>
      match env.vars var_id with
      | none => [.log "error in deviceStartComm"]
      | some var_value =>
        match variable_to_brightness var_value (dev_scale_params dev).1
            (dev_scale_params dev).2.1 with
        | (none, _, _) =>
          [.log "warn: invalid variable value",
            .updateVariable var_id
              (brightness_to_variable 0 (dev_scale_params dev).1
                (dev_scale_params dev).2.1 (dev_scale_params dev).2.2),
            .log "error in deviceStartComm"]
        | (some b, true, _) =>
          [.log "warn: variable value out of range",
            .updateVariable var_id
              (brightness_to_variable b (dev_scale_params dev).1
                (dev_scale_params dev).2.1 (dev_scale_params dev).2.2),
            .setCacheVar (cache_key dev.id var_id)
              (brightness_to_variable b (dev_scale_params dev).1
                (dev_scale_params dev).2.1 (dev_scale_params dev).2.2),
            .setCacheBrightness dev.id b,
            .updateState dev.id "brightnessLevel" (.int b)]
        | (some b, false, _) =>
          [.setCacheVar (cache_key dev.id var_id) var_value,
            .setCacheBrightness dev.id b,
            .updateState dev.id "brightnessLevel" (.int b)]
  else if dev.deviceTypeId = "SceneDevice" then
    (check_scene_match env jsonLoads dev).2 ++
      [.updateState dev.id "onOffState" (.bool (check_scene_match env jsonLoads dev).1),
        .log "info: scene initialized"]
  else if dev.deviceTypeId = "Relay2Dimmer" then
    if ((dev.pluginProps "relay1Device").getD "") = "" ∨
        ((dev.pluginProps "relay2Device").getD "") = "" then
      [.log "warn: not fully configured"]
    else
      (get_relay_states env ((dev.pluginProps "relay1Device").getD "")
          ((dev.pluginProps "relay2Device").getD "")).2 ++
        [.updateState dev.id "brightnessLevel"
            (.int (relay_states_to_level
              (get_relay_states env ((dev.pluginProps "relay1Device").getD "")
                ((dev.pluginProps "relay2Device").getD "")).1.1
              (get_relay_states env ((dev.pluginProps "relay1Device").getD "")
                ((dev.pluginProps "relay2Device").getD "")).1.2)),
          .updateState dev.id "onOffState"
            (.bool (decide (0 < relay_states_to_level
              (get_relay_states env ((dev.pluginProps "relay1Device").getD "")
                ((dev.pluginProps "relay2Device").getD "")).1.1
              (get_relay_states env ((dev.pluginProps "relay1Device").getD "")
                ((dev.pluginProps "relay2Device").getD "")).1.2))),
          .log "info: Relay2Dimmer initialized"]
  else if dev.deviceTypeId = "Relay2Fan" then
    if ((dev.pluginProps "relay1Device").getD "") = "" ∨
        ((dev.pluginProps "relay2Device").getD "") = "" then
      [.log "warn: not fully configured"]
    else
      (get_relay_states env ((dev.pluginProps "relay1Device").getD "")
          ((dev.pluginProps "relay2Device").getD "")).2 ++
        [.log "info: Relay2Fan initialized"]
  else []

/-- The second `deviceStartComm` definition (lines 1468–1489): it only
handles `myColorType` and `myLockType` (a `replacePluginPropsOnServer` call
setting `SupportsColor` / `IsLockSubType`) and does nothing for any other
device type. -/
def deviceStartComm_v2 (env : Env) (jsonLoads : JsonLoads) (dev : IDevice) :
    List Effect :=
  if dev.deviceTypeId = "myColorType" then [.replacePluginProps dev.id "SupportsColor"]
  else if dev.deviceTypeId = "myLockType" then [.replacePluginProps dev.id "IsLockSubType"]
  else []

/-- The `deviceStartComm` bindings of the `Plugin` class body, in source
order: line 967 first, line 1468 second.  Python executes a class body top to
bottom and each `def` rebinds the name in the class namespace, so the method
bound on the class is the last one. -/
def deviceStartComm_bindings :
    List (Env → JsonLoads → IDevice → List Effect) :=
  [deviceStartComm_v1, deviceStartComm_v2]

/-- The effective `Plugin.deviceStartComm`: the last class-body binding. -/
def deviceStartComm : Env → JsonLoads → IDevice → List Effect :=
  deviceStartComm_bindings.getLast?.getD (fun _ _ _ => [])

/-! ## Lemmas and theorems -/

theorem pyRound_intCast (b : ℤ) : pyRound (b : ℚ) = b := by
  unfold pyRound
  norm_num

theorem pyRound_int_add_of_abs_lt (b : ℤ) {δ : ℚ} (h : |δ| < 1/2) :
    pyRound ((b : ℚ) + δ) = b := by
  unfold pyRound
  rw [abs_lt] at h
  rcases le_or_lt 0 δ with h0 | h0
  · have hf : ⌊(b : ℚ) + δ⌋ = b := by
      rw [Int.floor_eq_iff]
      constructor <;> push_cast <;> linarith [h.2]
    rw [hf]
    have hr : (b : ℚ) + δ - b = δ := by push_cast; ring
    rw [hr]
    simp only [if_pos h.2]
  · have hf : ⌊(b : ℚ) + δ⌋ = b - 1 := by
      rw [Int.floor_eq_iff]
      constructor <;> push_cast <;> linarith [h.1]
    rw [hf]
    have h1 : (b : ℚ) + δ - ((b - 1 : ℤ) : ℚ) = δ + 1 := by push_cast; ring
    rw [h1]
    have h2 : ¬(δ + 1 < 1/2) := by linarith [h.1]
    have h3 : (1:ℚ)/2 < δ + 1 := by linarith [h.1]
    simp only [if_neg h2, if_pos h3]
    ring

theorem abs_pyRound_sub_le (q : ℚ) : |(pyRound q : ℚ) - q| ≤ 1/2 := by
  unfold pyRound
  have h0 : (0:ℚ) ≤ q - ⌊q⌋ := by
    have := Int.floor_le q
    linarith
  have h1 : q - ⌊q⌋ < 1 := by
    have := Int.lt_floor_add_one q
    linarith
  split_ifs with hr hr' he
  · rw [abs_le]; constructor <;> linarith
  · rw [abs_le]
    push_cast
    constructor <;> linarith
  · rw [abs_le]; constructor <;> linarith
  · rw [abs_le]
    push_cast
    have : ¬(q - ⌊q⌋ < 1/2) := hr
    have : ¬(1/2 < q - ⌊q⌋) := hr'
    constructor <;> linarith

theorem digitsFuel_eq (fuel m : ℕ) (h : m ≤ fuel) :
    digitsFuel fuel m = Nat.digits 10 m := by
  induction fuel generalizing m with
  | zero =>
    interval_cases m
    simp [digitsFuel]
  | succ f ih =>
    cases m with
    | zero => simp [digitsFuel]
    | succ k =>
      rw [Nat.digits_def' (by norm_num : 1 < 10) (Nat.succ_pos k)]
      show (k + 1) % 10 :: digitsFuel f ((k + 1) / 10) = _
      rw [ih ((k + 1) / 10) (by omega)]

theorem natDigitsLE_eq (m : ℕ) : natDigitsLE m = Nat.digits 10 m :=
  digitsFuel_eq m m le_rfl

theorem digitChr_isDigit {d : ℕ} (h : d < 10) : (digitChr d).isDigit = true := by
  interval_cases d <;> decide

theorem digitVal_digitChr {d : ℕ} (h : d < 10) : digitVal (digitChr d) = d := by
  interval_cases d <;> decide

theorem parseSign_cons_of_digit {c : Char} (t : List Char) (hc : c.isDigit = true) :
    parseSign (c :: t) = (false, c :: t) := by
  have h1 : c ≠ '-' := by rintro rfl; simp [Char.isDigit] at hc
  have h2 : c ≠ '+' := by rintro rfl; simp [Char.isDigit] at hc
  simp only [parseSign, if_neg h1, if_neg h2]

theorem renderNat_ne_nil (m : ℕ) : renderNat m ≠ [] := by
  unfold renderNat
  rw [natDigitsLE_eq]
  split_ifs with h
  · simp
  · have hd : Nat.digits 10 m ≠ [] := Nat.digits_ne_nil_iff_ne_zero.mpr h
    simp [hd]

theorem isDigit_of_mem_renderNat {m : ℕ} {c : Char} (hc : c ∈ renderNat m) :
    c.isDigit = true := by
  unfold renderNat at hc
  rw [natDigitsLE_eq] at hc
  split_ifs at hc with h
  · simp at hc
    subst hc
    decide
  · rw [List.mem_reverse, List.mem_map] at hc
    obtain ⟨d, hd, rfl⟩ := hc
    exact digitChr_isDigit (Nat.digits_lt_base (by norm_num) hd)

theorem parseDigits_reverse_map (L : List ℕ) (h : ∀ d ∈ L, d < 10) :
    parseDigits ((L.map digitChr).reverse) = Nat.ofDigits 10 L := by
  unfold parseDigits
  rw [List.foldl_reverse, List.foldr_map]
  induction L with
  | nil => simp [Nat.ofDigits]
  | cons d t ih =>
    have hd : digitVal (digitChr d) = d := digitVal_digitChr (h d (by simp))
    have ht := ih (fun x hx => h x (by simp [hx]))
    simp only [List.foldr_cons, ht, hd, Nat.ofDigits_cons]
    push_cast
    ring

theorem parseDigits_renderNat (m : ℕ) : parseDigits (renderNat m) = m := by
  unfold renderNat
  rw [natDigitsLE_eq]
  split_ifs with h
  · subst h; rfl
  · rw [parseDigits_reverse_map _ (fun d hd => Nat.digits_lt_base (by norm_num) hd),
      Nat.ofDigits_digits]

theorem ofDigits_replicate_zero (m : ℕ) :
    Nat.ofDigits 10 (List.replicate m 0) = 0 := by
  induction m with
  | zero => simp [Nat.ofDigits]
  | succ k ih => simp [List.replicate_succ, Nat.ofDigits_cons, ih]

theorem ofDigits_dropWhile_zero (L : List ℕ) :
    Nat.ofDigits 10 L =
      Nat.ofDigits 10 (L.dropWhile (· = 0)) *
        10 ^ (L.length - (L.dropWhile (· = 0)).length) := by
  induction L with
  | nil => simp [Nat.ofDigits]
  | cons d t ih =>
    by_cases hd : d = 0
    · subst hd
      rw [List.dropWhile_cons_of_pos (by simp)]
      have hlen : (t.dropWhile (· = 0)).length ≤ t.length :=
        (List.dropWhile_sublist (· = 0)).length_le
      have hexp : (0 :: t).length - (t.dropWhile (· = 0)).length =
          (t.length - (t.dropWhile (· = 0)).length) + 1 := by
        simp only [List.length_cons]
        omega
      rw [Nat.ofDigits_cons, hexp, pow_succ, ih]
      ring
    · rw [List.dropWhile_cons_of_neg (by simp [hd])]
      simp

theorem length_dropWhile_le' (L : List ℕ) :
    (L.dropWhile (· = 0)).length ≤ L.length :=
  (List.dropWhile_sublist (· = 0)).length_le

theorem digits_length_le_of_lt_pow {r n : ℕ} (h : r < 10 ^ n) :
    (Nat.digits 10 r).length ≤ n := by
  rcases Nat.eq_zero_or_pos r with hr | hr
  · subst hr; simp
  · rw [Nat.digits_len 10 r (by norm_num) (Nat.pos_iff_ne_zero.mp hr)]
    have := Nat.log_lt_of_lt_pow (Nat.pos_iff_ne_zero.mp hr) h
    omega

theorem takeWhile_isDigit_of_all {l : List Char} (h : ∀ c ∈ l, c.isDigit = true) :
    l.takeWhile Char.isDigit = l := by
  induction l with
  | nil => rfl
  | cons c t ih =>
    rw [List.takeWhile_cons_of_pos (h c (by simp)),
      ih (fun x hx => h x (by simp [hx]))]

theorem dropWhile_isDigit_of_all {l : List Char} (h : ∀ c ∈ l, c.isDigit = true) :
    l.dropWhile Char.isDigit = [] := by
  induction l with
  | nil => rfl
  | cons c t ih =>
    rw [List.dropWhile_cons_of_pos (h c (by simp))]
    exact ih (fun x hx => h x (by simp [hx]))

theorem parseMantissa_renderNat (m : ℕ) :
    parseMantissa (renderNat m) = some (m, 0, []) := by
  have hall : ∀ c ∈ renderNat m, c.isDigit = true := fun c hc =>
    isDigit_of_mem_renderNat hc
  unfold parseMantissa
  rw [takeWhile_isDigit_of_all hall, dropWhile_isDigit_of_all hall]
  simp [List.isEmpty_iff, renderNat_ne_nil m, parseDigits_renderNat m]

theorem fracRender_lt_ten (a n : ℕ) : ∀ d ∈ fracRender a n, d < 10 := by
  intro d hd
  unfold fracRender fracStripped at hd
  split_ifs at hd
  · simp at hd
    omega
  · have hmem : d ∈ fracDigitsLE a n := (List.dropWhile_sublist _).subset hd
    unfold fracDigitsLE at hmem
    rcases List.mem_append.mp hmem with h | h
    · rw [natDigitsLE_eq] at h
      exact Nat.digits_lt_base (by norm_num) h
    · rw [List.eq_of_mem_replicate h]
      norm_num

theorem fracRender_ne_nil (a n : ℕ) : fracRender a n ≠ [] := by
  unfold fracRender
  split_ifs with h
  · simp
  · simpa [List.isEmpty_iff] using h

theorem parseMantissa_render_frac (ip : ℕ) (F : List ℕ) (hF : ∀ d ∈ F, d < 10) :
    parseMantissa (renderNat ip ++ '.' :: (F.map digitChr).reverse) =
      some (ip * 10 ^ F.length + Nat.ofDigits 10 F, F.length, []) := by
  have hA : ∀ c ∈ renderNat ip, c.isDigit = true := fun c hc =>
    isDigit_of_mem_renderNat hc
  have hB : ∀ c ∈ (F.map digitChr).reverse, c.isDigit = true := by
    intro c hc
    rw [List.mem_reverse, List.mem_map] at hc
    obtain ⟨d, hd, rfl⟩ := hc
    exact digitChr_isDigit (hF d hd)
  have hdot : ¬(('.' : Char).isDigit = true) := by decide
  have h1 : (renderNat ip ++ '.' :: (F.map digitChr).reverse).takeWhile Char.isDigit =
      renderNat ip := by
    rw [List.takeWhile_append_of_pos hA, List.takeWhile_cons_of_neg hdot,
      List.append_nil]
  have h2 : (renderNat ip ++ '.' :: (F.map digitChr).reverse).dropWhile Char.isDigit =
      '.' :: (F.map digitChr).reverse := by
    rw [List.dropWhile_append_of_pos hA, List.dropWhile_cons_of_neg hdot]
  have h3 : ((F.map digitChr).reverse).takeWhile Char.isDigit =
      (F.map digitChr).reverse := takeWhile_isDigit_of_all hB
  have h4 : ((F.map digitChr).reverse).dropWhile Char.isDigit = [] :=
    dropWhile_isDigit_of_all hB
  have h5 : (renderNat ip).isEmpty = false := by
    simp [List.isEmpty_iff, renderNat_ne_nil ip]
  simp only [parseMantissa, h1, h2, List.head?_cons, List.tail_cons, h3, h4, h5]
  simp [parseDigits_renderNat, parseDigits_reverse_map F hF]

theorem parseExponent_nil : parseExponent [] = some (0, []) := by decide

theorem pyFloat_renderInt (k : ℤ) :
    pyFloatOfString (String.mk (renderInt k)) = some (k : ℚ) := by
  obtain ⟨c, t, hct⟩ := List.exists_cons_of_ne_nil (renderNat_ne_nil k.natAbs)
  have hcd : c.isDigit = true := isDigit_of_mem_renderNat (by rw [hct]; simp)
  by_cases hk : k < 0
  · have hdata : renderInt k = '-' :: renderNat k.natAbs := by
      simp [renderInt, hk]
    have hsign : parseSign ('-' :: renderNat k.natAbs) = (true, renderNat k.natAbs) := by
      simp [parseSign]
    have hcast : ((k.natAbs : ℕ) : ℚ) = -(k : ℚ) := by
      have h0 : ((k.natAbs : ℤ)) = -k := by omega
      rw [← Int.cast_natCast (R := ℚ), h0, Int.cast_neg]
    have hval : ratOfRepr true k.natAbs 0 0 = (k : ℚ) := by
      unfold ratOfRepr
      rw [if_pos rfl, hcast]
      norm_num
    simp [pyFloatOfString, hdata, hsign, parseMantissa_renderNat,
      parseExponent_nil, hval]
  · have hdata : renderInt k = renderNat k.natAbs := by
      simp [renderInt, hk]
    have hsign : parseSign (renderNat k.natAbs) = (false, renderNat k.natAbs) := by
      rw [hct]
      exact parseSign_cons_of_digit t hcd
    have hcast : ((k.natAbs : ℕ) : ℚ) = (k : ℚ) := by
      have h0 : ((k.natAbs : ℤ)) = k := by omega
      rw [← Int.cast_natCast (R := ℚ), h0]
    have hval : ratOfRepr false k.natAbs 0 0 = (k : ℚ) := by
      unfold ratOfRepr
      rw [if_neg (by simp), hcast]
      norm_num
    simp [pyFloatOfString, hdata, hsign, parseMantissa_renderNat,
      parseExponent_nil, hval]

theorem ofDigits_fracDigitsLE (a n : ℕ) :
    Nat.ofDigits 10 (fracDigitsLE a n) = a % 10 ^ n := by
  unfold fracDigitsLE
  rw [Nat.ofDigits_append, ofDigits_replicate_zero, natDigitsLE_eq,
    Nat.ofDigits_digits]
  ring

theorem length_fracDigitsLE (a n : ℕ) : (fracDigitsLE a n).length = n := by
  unfold fracDigitsLE
  have hlt : a % 10 ^ n < 10 ^ n := Nat.mod_lt _ (by positivity)
  have hle : (natDigitsLE (a % 10 ^ n)).length ≤ n := by
    rw [natDigitsLE_eq]
    exact digits_length_le_of_lt_pow hlt
  simp only [List.length_append, List.length_replicate]
  omega

theorem length_fracRender_le (a n : ℕ) (hn : 0 < n) :
    (fracRender a n).length ≤ n := by
  unfold fracRender
  split_ifs with h
  · simpa using hn
  · calc (fracStripped a n).length ≤ (fracDigitsLE a n).length :=
        (List.dropWhile_sublist _).length_le
      _ = n := length_fracDigitsLE a n

theorem fracRender_val (a n : ℕ) (hn : 0 < n) :
    (Nat.ofDigits 10 (fracRender a n) : ℚ) / 10 ^ (fracRender a n).length =
      ((a % 10 ^ n : ℕ) : ℚ) / 10 ^ n := by
  have hstrip : a % 10 ^ n =
      Nat.ofDigits 10 (fracStripped a n) *
        10 ^ (n - (fracStripped a n).length) := by
    have h := ofDigits_dropWhile_zero (fracDigitsLE a n)
    rw [ofDigits_fracDigitsLE, length_fracDigitsLE] at h
    exact h
  have hlen : (fracStripped a n).length ≤ n := by
    calc (fracStripped a n).length ≤ (fracDigitsLE a n).length :=
        (List.dropWhile_sublist _).length_le
      _ = n := length_fracDigitsLE a n
  unfold fracRender
  split_ifs with h
  · have hnil : fracStripped a n = [] := List.isEmpty_iff.mp h
    rw [hnil] at hstrip
    simp only [Nat.ofDigits_nil, zero_mul] at hstrip
    rw [hstrip]
    norm_num [Nat.ofDigits]
  · show (Nat.ofDigits 10 (fracStripped a n) : ℚ) / 10 ^ (fracStripped a n).length =
      ((a % 10 ^ n : ℕ) : ℚ) / 10 ^ n
    rw [hstrip]
    push_cast
    rw [show (10 : ℚ) ^ n =
        10 ^ (fracStripped a n).length * 10 ^ (n - (fracStripped a n).length) from by
      rw [← pow_add]
      congr 1
      omega]
    have h1 : ((10:ℚ) ^ (fracStripped a n).length) ≠ 0 := by positivity
    have h2 : ((10:ℚ) ^ (n - (fracStripped a n).length)) ≠ 0 := by positivity
    field_simp
    ring

theorem pyFloat_renderFixed (k : ℤ) (n : ℕ) (hn : 0 < n) :
    pyFloatOfString (String.mk (renderFixed k n)) = some ((k : ℚ) / 10 ^ n) := by
  have hF : ∀ d ∈ fracRender k.natAbs n, d < 10 := fracRender_lt_ten k.natAbs n
  have hmant := parseMantissa_render_frac (k.natAbs / 10 ^ n) (fracRender k.natAbs n) hF
  have h10 : ((10:ℚ) ^ (fracRender k.natAbs n).length) ≠ 0 := by positivity
  have hvq : ((k.natAbs / 10 ^ n : ℕ) : ℚ) + ((k.natAbs % 10 ^ n : ℕ) : ℚ) / 10 ^ n =
      (k.natAbs : ℚ) / 10 ^ n := by
    have hdam := Nat.div_add_mod k.natAbs (10 ^ n)
    have hc := congrArg (Nat.cast (R := ℚ)) hdam
    push_cast at hc
    field_simp
    linarith [hc]
  have hval : ((k.natAbs / 10 ^ n * 10 ^ (fracRender k.natAbs n).length +
        Nat.ofDigits 10 (fracRender k.natAbs n) : ℕ) : ℚ) /
        10 ^ (fracRender k.natAbs n).length = (k.natAbs : ℚ) / 10 ^ n := by
    push_cast
    rw [add_div, mul_div_cancel_right₀ _ h10, fracRender_val k.natAbs n hn]
    exact hvq
  by_cases hk : k < 0
  · have hdata : renderFixed k n = '-' ::
        (renderNat (k.natAbs / 10 ^ n) ++ '.' ::
          ((fracRender k.natAbs n).map digitChr).reverse) := by
      simp [renderFixed, hk]
    have hsign : parseSign ('-' ::
        (renderNat (k.natAbs / 10 ^ n) ++ '.' ::
          ((fracRender k.natAbs n).map digitChr).reverse)) =
        (true, renderNat (k.natAbs / 10 ^ n) ++ '.' ::
          ((fracRender k.natAbs n).map digitChr).reverse) := by
      simp [parseSign]
    have hcast : (k.natAbs : ℚ) = -(k : ℚ) := by
      have h0 : ((k.natAbs : ℤ)) = -k := by omega
      rw [← Int.cast_natCast (R := ℚ), h0, Int.cast_neg]
    simp only [pyFloatOfString, hdata, hsign, hmant, parseExponent_nil,
      List.isEmpty_nil, if_true]
    refine congrArg some ?_
    unfold ratOfRepr
    rw [if_pos rfl, zpow_zero, mul_one, neg_div, hval, hcast]
    ring
  · obtain ⟨c, t, hct⟩ :=
      List.exists_cons_of_ne_nil (renderNat_ne_nil (k.natAbs / 10 ^ n))
    have hcd : c.isDigit = true := isDigit_of_mem_renderNat (by rw [hct]; simp)
    have hdata : renderFixed k n =
        renderNat (k.natAbs / 10 ^ n) ++ '.' ::
          ((fracRender k.natAbs n).map digitChr).reverse := by
      simp [renderFixed, hk]
    have hsign : parseSign (renderNat (k.natAbs / 10 ^ n) ++ '.' ::
        ((fracRender k.natAbs n).map digitChr).reverse) =
        (false, renderNat (k.natAbs / 10 ^ n) ++ '.' ::
          ((fracRender k.natAbs n).map digitChr).reverse) := by
      rw [hct, List.cons_append]
      exact parseSign_cons_of_digit _ hcd
    have hcast : (k.natAbs : ℚ) = (k : ℚ) := by
      have h0 : ((k.natAbs : ℤ)) = k := by omega
      rw [← Int.cast_natCast (R := ℚ), h0]
    simp only [pyFloatOfString, hdata, hsign, hmant, parseExponent_nil,
      List.isEmpty_nil, if_true]
    refine congrArg some ?_
    unfold ratOfRepr
    rw [if_neg (by simp), zpow_zero, mul_one, hval, hcast]

theorem vtb_fst_of_parse (s : String) (mn mx w : ℚ)
    (hs : pyFloatOfString s = some w) :
    (variable_to_brightness s mn mx).1 =
      some (if w < mn then pyRound (((mn - mn) / (mx - mn)) * 100)
        else if w > mx then pyRound (((mx - mn) / (mx - mn)) * 100)
        else pyRound (((w - mn) / (mx - mn)) * 100)) := by
  simp only [variable_to_brightness, hs]
  split_ifs <;> rfl

theorem roundtrip_core (b : ℤ) (mn mx q w v0 : ℚ)
    (hb0 : 0 ≤ b) (hb1 : b ≤ 100) (hmm : mn < mx)
    (hv0 : v0 = (b : ℚ) / 100 * (mx - mn) + mn)
    (hq : 100 * q < mx - mn) (hq0 : 0 < q)
    (hw : |w - v0| ≤ q / 2) :
    (if w < mn then pyRound (((mn - mn) / (mx - mn)) * 100)
     else if w > mx then pyRound (((mx - mn) / (mx - mn)) * 100)
     else pyRound (((w - mn) / (mx - mn)) * 100)) = b := by
  have hr : (0:ℚ) < mx - mn := by linarith
  have habs := abs_le.mp hw
  split_ifs with h1 h2
  · have hb : b = 0 := by
      by_contra hb
      have h1b : (1:ℚ) ≤ (b : ℚ) := by exact_mod_cast (by omega : 1 ≤ b)
      nlinarith [habs.1, habs.2]
    subst hb
    have harg : ((mn - mn) / (mx - mn)) * 100 = ((0 : ℤ) : ℚ) := by
      push_cast
      field_simp
    rw [harg, pyRound_intCast]
  · have hb : b = 100 := by
      by_contra hb
      have h1b : (b : ℚ) ≤ 99 := by exact_mod_cast (by omega : b ≤ 99)
      nlinarith [habs.1, habs.2]
    subst hb
    have harg : ((mx - mn) / (mx - mn)) * 100 = ((100 : ℤ) : ℚ) := by
      push_cast
      field_simp
    rw [harg, pyRound_intCast]
  · have key : ((w - mn) / (mx - mn)) * 100 = (b : ℚ) + (w - v0) * 100 / (mx - mn) := by
      rw [hv0]
      field_simp
      ring
    rw [key, pyRound_int_add_of_abs_lt]
    have habs2 : |(w - v0) * 100 / (mx - mn)| = |w - v0| * 100 / (mx - mn) := by
      rw [abs_div, abs_mul, abs_of_pos hr,
        abs_of_nonneg (by norm_num : (0:ℚ) ≤ 100)]
    rw [habs2]
    have hle : |w - v0| * 100 / (mx - mn) ≤ (q / 2) * 100 / (mx - mn) := by
      gcongr
    have hlt : (q / 2) * 100 / (mx - mn) < 1 / 2 := by
      rw [div_lt_iff hr]
      linarith
    linarith

/-- Claim C1 (amended): the variable/brightness round-trip is exact for every
level in `[0,100]` and every scale `(min, max, isFloat)` with `min < max`
whose rendered quantisation step `q` (`1` for integer scales, `0.01` for
float scales with range ≤ 10, `0.1` for larger float ranges) satisfies
`100·q < max - min`; for coarser scales the round-trip can lose the level
(see the counterexample). -/
theorem C1_roundtrip_amended (b : ℤ) (mn mx : ℚ) (f : Bool)
    (hb0 : 0 ≤ b) (hb1 : b ≤ 100) (hmm : mn < mx)
    (hstep : 100 * precStep f (mx - mn) < mx - mn) :
    (variable_to_brightness (brightness_to_variable b mn mx f) mn mx).1 =
      some b := by
  have hr : (0:ℚ) < mx - mn := by linarith
  have hclamp : max 0 (min 100 b) = b := by omega
  have hv0 : scaled_value b mn mx = (b : ℚ) / 100 * (mx - mn) + mn := by
    unfold scaled_value
    rw [hclamp]
  cases f with
  | false =>
    have hq : 100 * 1 < mx - mn := by
      simpa [precStep] using hstep
    have hbtv : brightness_to_variable b mn mx false =
        String.mk (renderInt (pyRound (scaled_value b mn mx))) := by
      unfold brightness_to_variable
      simp
    rw [hbtv, vtb_fst_of_parse _ mn mx _ (pyFloat_renderInt _)]
    refine congrArg some ?_
    exact roundtrip_core b mn mx 1 _ _ hb0 hb1 hmm hv0 hq (by norm_num)
      (by simpa using abs_pyRound_sub_le (scaled_value b mn mx))
  | true =>
    by_cases h10 : mx - mn ≤ 10
    · have hq : 100 * (1/100) < mx - mn := by
        simpa [precStep, h10] using hstep
      have hbtv : brightness_to_variable b mn mx true =
          String.mk (renderFixed (pyRound (scaled_value b mn mx * 10 ^ 2)) 2) := by
        unfold brightness_to_variable
        by_cases h1' : mx - mn ≤ 1
        · rw [if_pos rfl, if_pos h1']
        · rw [if_pos rfl, if_neg h1', if_pos h10]
      rw [hbtv, vtb_fst_of_parse _ mn mx _ (pyFloat_renderFixed _ 2 (by norm_num))]
      refine congrArg some ?_
      refine roundtrip_core b mn mx (1/100) _ _ hb0 hb1 hmm hv0 hq (by norm_num) ?_
      have h1 := abs_pyRound_sub_le (scaled_value b mn mx * 10 ^ 2)
      have heq : ((pyRound (scaled_value b mn mx * 10 ^ 2) : ℤ) : ℚ) / 10 ^ 2 -
          scaled_value b mn mx =
          (((pyRound (scaled_value b mn mx * 10 ^ 2) : ℤ) : ℚ) -
            scaled_value b mn mx * 10 ^ 2) / 10 ^ 2 := by
        field_simp
        ring
      rw [heq, abs_div, abs_of_pos (by norm_num : (0:ℚ) < 10 ^ 2)]
      rw [div_le_iff₀ (by norm_num : (0:ℚ) < 10 ^ 2)]
      nlinarith [h1]
    · have hq : 100 * (1/10) < mx - mn := by
        simpa [precStep, h10] using hstep
      have hbtv : brightness_to_variable b mn mx true =
          String.mk (renderFixed (pyRound (scaled_value b mn mx * 10 ^ 1)) 1) := by
        unfold brightness_to_variable
        rw [if_pos rfl, if_neg (fun h => h10 (h.trans (by norm_num))), if_neg h10]
      rw [hbtv, vtb_fst_of_parse _ mn mx _ (pyFloat_renderFixed _ 1 (by norm_num))]
      refine congrArg some ?_
      refine roundtrip_core b mn mx (1/10) _ _ hb0 hb1 hmm hv0 hq (by norm_num) ?_
      have h1 := abs_pyRound_sub_le (scaled_value b mn mx * 10 ^ 1)
      have heq : ((pyRound (scaled_value b mn mx * 10 ^ 1) : ℤ) : ℚ) / 10 ^ 1 -
          scaled_value b mn mx =
          (((pyRound (scaled_value b mn mx * 10 ^ 1) : ℤ) : ℚ) -
            scaled_value b mn mx * 10 ^ 1) / 10 ^ 1 := by
        field_simp
        ring
      rw [heq, abs_div, abs_of_pos (by norm_num : (0:ℚ) < 10 ^ 1)]
      rw [div_le_iff₀ (by norm_num : (0:ℚ) < 10 ^ 1)]
      nlinarith [h1]

/-! ### Concrete literal parses -/

theorem pyFloat_s0 : pyFloatOfString "0" = some 0 := by
  rw [show ("0" : String) = String.mk (renderInt 0) from by decide, pyFloat_renderInt]
  norm_num

theorem pyFloat_s1 : pyFloatOfString "1" = some 1 := by
  rw [show ("1" : String) = String.mk (renderInt 1) from by decide, pyFloat_renderInt]
  norm_num

theorem pyFloat_s12 : pyFloatOfString "12" = some 12 := by
  rw [show ("12" : String) = String.mk (renderInt 12) from by decide, pyFloat_renderInt]
  norm_num

theorem pyFloat_s100 : pyFloatOfString "100" = some 100 := by
  rw [show ("100" : String) = String.mk (renderInt 100) from by decide, pyFloat_renderInt]
  norm_num

theorem pyFloat_s00 : pyFloatOfString "0.0" = some 0 := by
  rw [show ("0.0" : String) = String.mk (renderFixed 0 1) from by decide,
    pyFloat_renderFixed 0 1 (by norm_num)]
  norm_num

/-! ### The claims -/

/-- Claim C2: for each of the four relay-pair states, `_relay_states_to_level`
followed by `_level_to_relay_states` returns exactly the original pair, with
no rounding loss. -/
theorem C2_relay_pair_roundtrip :
    ∀ r1 r2 : Bool, level_to_relay_states (relay_states_to_level r1 r2) = (r1, r2) := by
  decide

/-- Claim C5: `_relay_states_to_level` maps the relay pair exactly per the
fixed asymmetric table — relay 1 alone is 33, relay 2 alone is 66, never the
reverse. -/
theorem C5_relay_table :
    relay_states_to_level false false = 0 ∧
    relay_states_to_level true false = 33 ∧
    relay_states_to_level false true = 66 ∧
    relay_states_to_level true true = 100 := by
  decide

/-- Claim C4: `_level_to_relay_states` rounds any integer level with the
breakpoints `≤16 → 0`, `17..49 → 33`, `50..83 → 66`, `≥84 → 100` and then
applies the inverse relay table; in particular at the boundary levels
16/17/49/50/83/84. -/
theorem C4_level_breakpoints :
    (∀ level : ℤ,
      (level ≤ 16 → level_to_relay_states level = (false, false)) ∧
      (17 ≤ level → level ≤ 49 → level_to_relay_states level = (true, false)) ∧
      (50 ≤ level → level ≤ 83 → level_to_relay_states level = (false, true)) ∧
      (84 ≤ level → level_to_relay_states level = (true, true))) ∧
    level_to_relay_states 16 = (false, false) ∧
    level_to_relay_states 17 = (true, false) ∧
    level_to_relay_states 49 = (true, false) ∧
    level_to_relay_states 50 = (false, true) ∧
    level_to_relay_states 83 = (false, true) ∧
    level_to_relay_states 84 = (true, true) := by
  refine ⟨fun level => ⟨fun h => ?_, fun h1 h2 => ?_, fun h1 h2 => ?_, fun h => ?_⟩,
    by decide, by decide, by decide, by decide, by decide, by decide⟩
  · unfold level_to_relay_states
    rw [if_pos h]
    rfl
  · unfold level_to_relay_states
    rw [if_neg (by omega), if_pos h2]
    rfl
  · unfold level_to_relay_states
    rw [if_neg (by omega), if_neg (by omega), if_pos h2]
    rfl
  · unfold level_to_relay_states
    rw [if_neg (by omega), if_neg (by omega), if_neg (by omega)]
    rfl

/-- Claim C4 witness: the theorem applied at the boundary level 16. -/
theorem C4_witness : level_to_relay_states 16 = (false, false) :=
  (C4_level_breakpoints.1 16).1 (by norm_num)

/-- Claim C6: `_get_scale_params` returns the default `(0, 100, non-float)`
whenever either string is unparsable or the parsed min is not below the max;
otherwise it returns the parsed pair with `isFloat` true iff either string
contains a decimal point or the range is at most 10.  In particular
`("0","1")` gives float, `("0","100")` gives non-float, and `("0.0","100")`
gives float. -/
theorem C6_scale_params (minStr maxStr : String) :
    (∀ mn mx : ℚ, pyFloatOfString minStr = some mn →
      pyFloatOfString maxStr = some mx → mn < mx →
      get_scale_params minStr maxStr =
        (mn, mx, (minStr.data.contains '.' || maxStr.data.contains '.') ||
          decide (mx - mn ≤ 10))) ∧
    ((pyFloatOfString minStr = none ∨ pyFloatOfString maxStr = none ∨
      (∃ mn mx : ℚ, pyFloatOfString minStr = some mn ∧
        pyFloatOfString maxStr = some mx ∧ mx ≤ mn)) →
      get_scale_params minStr maxStr = (0, 100, false)) ∧
    get_scale_params "0" "1" = (0, 1, true) ∧
    get_scale_params "0" "100" = (0, 100, false) ∧
    get_scale_params "0.0" "100" = (0, 100, true) := by
  refine ⟨?_, ?_, ?_, ?_, ?_⟩
  · intro mn mx hmn hmx hlt
    simp only [get_scale_params, hmn, hmx]
    rw [if_neg (by simpa using hlt)]
  · rintro (h | h | ⟨mn, mx, hmn, hmx, hle⟩)
    · rcases hx : pyFloatOfString maxStr with _ | mx <;>
        simp only [get_scale_params, h, hx]
    · rcases hm : pyFloatOfString minStr with _ | mn <;>
        simp only [get_scale_params, h, hm]
    · simp only [get_scale_params, hmn, hmx]
      rw [if_pos (by simpa using hle)]
  · simp only [get_scale_params, pyFloat_s0, pyFloat_s1,
      show ("0" : String).data.contains '.' = false from by decide,
      show ("1" : String).data.contains '.' = false from by decide]
    norm_num
  · simp only [get_scale_params, pyFloat_s0, pyFloat_s100,
      show ("0" : String).data.contains '.' = false from by decide,
      show ("100" : String).data.contains '.' = false from by decide]
    norm_num
  · simp only [get_scale_params, pyFloat_s00, pyFloat_s100,
      show ("0.0" : String).data.contains '.' = true from by decide]
    norm_num

/-- Claim C6 witness: the theorem's first clause applied to `("0","1")`. -/
theorem C6_witness : get_scale_params "0" "1" = (0, 1, true) := by
  have h := (C6_scale_params "0" "1").1 0 1 pyFloat_s0 pyFloat_s1 (by norm_num)
  simpa using h

/-- Claim C10: `_get_scale_params` always returns `min` strictly below `max`
(either the parsed pair, which is guarded, or the 0/100 default), so the
divisions by `max - min` in `_variable_to_brightness` and
`_brightness_to_variable` never divide by zero on its output. -/
theorem C10_scale_params_min_lt_max (minStr maxStr : String) :
    (get_scale_params minStr maxStr).1 < (get_scale_params minStr maxStr).2.1 ∧
    (get_scale_params minStr maxStr).2.1 - (get_scale_params minStr maxStr).1 ≠ 0 := by
  rcases hm : pyFloatOfString minStr with _ | mn <;>
    rcases hx : pyFloatOfString maxStr with _ | mx <;>
    simp only [get_scale_params, hm, hx]
  · norm_num
  · norm_num
  · norm_num
  · split_ifs with h
    · norm_num
    · have hlt : mn < mx := lt_of_not_ge h
      exact ⟨hlt, sub_ne_zero_of_ne (ne_of_gt hlt)⟩

/-- Claim C7: `_brightness_to_variable` clamps the level into `[0,100]` and
rescales it linearly into `[min,max]` (that value is `scaled_value`); for a
non-float scale the result string renders the integer `round(value)`, for a
float scale it renders `value` rounded to 2 decimal places when the range is
at most 10 and to 1 decimal place otherwise. -/
theorem C7_btv_rendering (b : ℤ) (mn mx : ℚ) :
    (brightness_to_variable b mn mx false =
        String.mk (renderInt (pyRound (scaled_value b mn mx))) ∧
      pyFloatOfString (brightness_to_variable b mn mx false) =
        some ((pyRound (scaled_value b mn mx) : ℤ) : ℚ)) ∧
    (mx - mn ≤ 10 →
      pyFloatOfString (brightness_to_variable b mn mx true) =
        some (pyRoundDp (scaled_value b mn mx) 2)) ∧
    (¬(mx - mn ≤ 10) →
      pyFloatOfString (brightness_to_variable b mn mx true) =
        some (pyRoundDp (scaled_value b mn mx) 1)) := by
  refine ⟨⟨?_, ?_⟩, ?_, ?_⟩
  · unfold brightness_to_variable
    simp
  · have hbtv : brightness_to_variable b mn mx false =
        String.mk (renderInt (pyRound (scaled_value b mn mx))) := by
      unfold brightness_to_variable
      simp
    rw [hbtv, pyFloat_renderInt]
  · intro h10
    have hbtv : brightness_to_variable b mn mx true =
        String.mk (renderFixed (pyRound (scaled_value b mn mx * 10 ^ 2)) 2) := by
      unfold brightness_to_variable
      by_cases h1' : mx - mn ≤ 1
      · rw [if_pos rfl, if_pos h1']
      · rw [if_pos rfl, if_neg h1', if_pos h10]
    rw [hbtv, pyFloat_renderFixed _ 2 (by norm_num)]
    rfl
  · intro h10
    have hbtv : brightness_to_variable b mn mx true =
        String.mk (renderFixed (pyRound (scaled_value b mn mx * 10 ^ 1)) 1) := by
      unfold brightness_to_variable
      rw [if_pos rfl, if_neg (fun h => h10 (h.trans (by norm_num))), if_neg h10]
    rw [hbtv, pyFloat_renderFixed _ 1 (by norm_num)]
    rfl

/-- Claim C7 witness: at level 70 on the float scale 0–1 the rendered string
parses back to 0.7 (`str(round(0.7, 2))` is `"0.7"`). -/
theorem C7_witness :
    pyFloatOfString (brightness_to_variable 70 0 1 true) = some (7/10) := by
  have h := ((C7_btv_rendering 70 0 1).2.1 (by norm_num))
  rw [h]
  refine congrArg some ?_
  have hsv : scaled_value 70 0 1 = 7/10 := by
    unfold scaled_value
    norm_num
  rw [hsv]
  unfold pyRoundDp pyRound
  norm_num

/-- Claim C1 witness: the amended theorem applied at level 37 on the integer
scale 0–1000. -/
theorem C1_witness :
    (variable_to_brightness (brightness_to_variable 37 0 1000 false) 0 1000).1 =
      some 37 :=
  C1_roundtrip_amended 37 0 1000 false (by norm_num) (by norm_num) (by norm_num)
    (by norm_num [precStep])

/-- Claim C1 counterexample: on the integer scale 0–12 (as produced by
`_get_scale_params("0", "12")`, a valid configuration with `min < max`) the
round-trip maps level 4 to the variable string `"0"` and back to level 0, a
loss of 4 levels — so the round-trip does not hold for every scale
configuration with `min < max`. -/
theorem C1_counterexample :
    get_scale_params "0" "12" = (0, 12, false) ∧
    brightness_to_variable 4 0 12 false = "0" ∧
    (variable_to_brightness (brightness_to_variable 4 0 12 false) 0 12).1 = some 0 ∧
    (0 : ℤ) ≠ 4 := by
  have hsv : scaled_value 4 0 12 = 12/25 := by
    unfold scaled_value
    norm_num
  have hpr : pyRound (12/25) = 0 := by
    unfold pyRound
    norm_num
  have hbtv : brightness_to_variable 4 0 12 false = "0" := by
    unfold brightness_to_variable
    rw [if_neg (by simp), hsv, hpr]
    decide
  refine ⟨?_, hbtv, ?_, by norm_num⟩
  · simp only [get_scale_params, pyFloat_s0, pyFloat_s12,
      show ("0" : String).data.contains '.' = false from by decide,
      show ("12" : String).data.contains '.' = false from by decide]
    norm_num
  · rw [hbtv, vtb_fst_of_parse "0" 0 12 0 pyFloat_s0]
    rw [if_neg (by norm_num), if_neg (by norm_num)]
    refine congrArg some ?_
    rw [show ((0 : ℚ) - 0) / (12 - 0) * 100 = ((0 : ℤ) : ℚ) from by norm_num,
      pyRound_intCast]

/-- Claim C3: the `Plugin` class body binds `deviceStartComm` twice, and the
later (line 1468) definition is the one bound on the class; on device types
`myDimmerType`, `SceneDevice`, `Relay2Dimmer` and `Relay2Fan` it performs no
effect at all, while the earlier, shadowed definition (line 967) would have
performed initialization (witnessed here by a concrete `myDimmerType` device
with an invalid linked-variable value, on which the shadowed version writes
the variable and logs). -/
theorem C3_deviceStartComm_shadowed :
    deviceStartComm = deviceStartComm_v2 ∧
    (∀ (env : Env) (jl : JsonLoads) (dev : IDevice),
      (dev.deviceTypeId = "myDimmerType" ∨ dev.deviceTypeId = "SceneDevice" ∨
        dev.deviceTypeId = "Relay2Dimmer" ∨ dev.deviceTypeId = "Relay2Fan") →
      deviceStartComm env jl dev = []) ∧
    deviceStartComm_v1
      ⟨fun _ => none, fun v => if v = 5 then some "abc" else none⟩
      (fun _ => none)
      ⟨1, "myDimmerType", (fun k => if k = "variableId" then some "5" else none),
        "DimmerDevice", true, 0, false, 0, 0, 0, 0, 0, false, []⟩ ≠ [] := by
  refine ⟨rfl, ?_, by decide⟩
  intro env jl dev h
  show deviceStartComm_v2 env jl dev = []
  unfold deviceStartComm_v2
  rcases h with h | h | h | h <;> rw [h] <;>
    rw [if_neg (by decide), if_neg (by decide)]

/-- Claim C3 witness: the effective `deviceStartComm` applied to a concrete
`myDimmerType` device does nothing. -/
theorem C3_witness :
    deviceStartComm ⟨fun _ => none, fun _ => none⟩ (fun _ => none)
      ⟨1, "myDimmerType", (fun _ => none), "DimmerDevice", true, 0, false,
        0, 0, 0, 0, 0, false, []⟩ = [] :=
  C3_deviceStartComm_shadowed.2.1 _ _ _ (Or.inl rfl)

/-- Claim C8 counterexample: the empty string is not JSON-parsable
(`json.loads("")` raises, modelled by a loader returning `none` on it), yet
`_check_scene_match` on a scene device whose stored snapshot is `""` returns
false with no log at all — the empty-string guard at line 819 returns before
the parse — so it is not the case that every malformed snapshot string is
logged by both operations. -/
theorem C8_counterexample :
    (fun _ : String => (none : Option (List (SnapKey × SavedItem)))) "" = none ∧
    check_scene_match ⟨fun _ => none, fun _ => none⟩ (fun _ => none)
      ⟨0, "SceneDevice", (fun k => if k = "savedStates" then some "" else none),
        "", false, 0, false, 0, 0, 0, 0, 0, false, []⟩ = (false, []) := by
  exact ⟨rfl, by decide⟩

/-- Claim C8 (amended): for every nonempty snapshot string on which the JSON
loader fails, `_check_scene_match` returns false and logs the invalid-data
error, and `_apply_scene_state` performs no device or variable writes and
logs the same error; neither operation lets the exception escape.  (For the
empty string both still return false / do nothing, but only the apply side
logs — a "no saved state" warning — while the check side is silent.) -/
theorem C8_malformed_amended (env : Env) (jl : JsonLoads) (scene_dev : IDevice)
    (s : String) (hs : scene_dev.pluginProps "savedStates" = some s)
    (hne : s ≠ "") (hbad : jl s = none) :
    check_scene_match env jl scene_dev =
      (false, [Effect.log "error: invalid saved state data"]) ∧
    apply_scene_state env jl scene_dev =
      [Effect.log "error: invalid saved state data"] ∧
    (apply_scene_state env jl scene_dev).filter Effect.isWrite = [] := by
  have hget : (scene_dev.pluginProps "savedStates").getD "" = s := by
    rw [hs]
    rfl
  have h1 : check_scene_match env jl scene_dev =
      (false, [Effect.log "error: invalid saved state data"]) := by
    unfold check_scene_match
    rw [hget, if_neg hne, hbad]
  have h2 : apply_scene_state env jl scene_dev =
      [Effect.log "error: invalid saved state data"] := by
    unfold apply_scene_state
    rw [hget, if_neg hne, hbad]
  refine ⟨h1, h2, ?_⟩
  rw [h2]
  rfl

/-- Claim C8 witness: the amended theorem applied to a concrete scene device
whose stored snapshot string is `"not json"` and a loader that fails on it. -/
theorem C8_witness :
    check_scene_match ⟨fun _ => none, fun _ => none⟩ (fun _ => none)
      ⟨0, "SceneDevice", (fun k => if k = "savedStates" then some "not json" else none),
        "", false, 0, false, 0, 0, 0, 0, 0, false, []⟩ =
      (false, [Effect.log "error: invalid saved state data"]) :=
  (C8_malformed_amended _ _ _ "not json" rfl (by decide) rfl).1

theorem flash_restore_mem (env : Env) (os : List FlashOrig) (o : FlashOrig)
    (ho : o ∈ os) (hd : (env.devices o.devId).isSome = true) :
    (if o.isDimmer then Effect.setBrightness o.devId o.brightness
     else if o.onState then Effect.turnOn o.devId
     else Effect.turnOff o.devId) ∈ flash_restore env os := by
  induction os with
  | nil => cases ho
  | cons x rest ih =>
    rcases List.mem_cons.mp ho with rfl | hmem
    · obtain ⟨d, hdev⟩ := Option.isSome_iff_exists.mp hd
      unfold flash_restore
      refine List.mem_append_left _ ?_
      rw [hdev]
      split_ifs <;> simp
    · unfold flash_restore
      exact List.mem_append_right _ (ih hmem)

/-- Claim C9: for every cancellation schedule (the oracle gives each
stop-event query's answer, so this covers normal completion and cancellation
at any wait point), `_flash_device_thread`'s trace ends with the restore pass
— which writes back each captured device's original state (dimmer: original
brightness, relay: original on/off) — followed by the `finally` cleanup that
discards the job's device ids from the flashing set and deletes its
bookkeeping entries. -/
theorem C9_flash_restore_then_cleanup (env : Env) (tid : ℕ) (ids : List ℤ)
    (count : ℕ) (maxB minB : Option ℤ) (oracle : ℕ → Bool) (inT inE : Bool) :
    (∃ pre, flash_device_thread env tid ids count maxB minB oracle inT inE =
      pre ++ flash_restore env (capture_originals env ids).1 ++
        flash_cleanup ids tid inT inE) ∧
    (∀ o ∈ (capture_originals env ids).1,
      (env.devices o.devId).isSome = true →
      (if o.isDimmer then Effect.setBrightness o.devId o.brightness
       else if o.onState then Effect.turnOn o.devId
       else Effect.turnOff o.devId) ∈
        flash_restore env (capture_originals env ids).1) := by
  constructor
  · refine ⟨(capture_originals env ids).2 ++ ids.map Effect.addFlashing ++
      flash_loop env (capture_originals env ids).1 (maxB.getD 100)
        (minB.getD 0) oracle count 0, ?_⟩
    unfold flash_device_thread
    simp [List.append_assoc]
  · intro o ho hd
    exact flash_restore_mem env _ o ho hd

/-- Claim C9 witness: a one-relay job (device 7, originally on) under an
oracle that never cancels; the restore pass contains the original-state
write. -/
theorem C9_witness :
    Effect.turnOn 7 ∈ flash_restore
      ⟨fun i => if i = 7 then
          some ⟨7, "", fun _ => none, "RelayDevice", false, 0, true,
            0, 0, 0, 0, 0, false, []⟩
        else none, fun _ => none⟩
      (capture_originals
        ⟨fun i => if i = 7 then
            some ⟨7, "", fun _ => none, "RelayDevice", false, 0, true,
              0, 0, 0, 0, 0, false, []⟩
          else none, fun _ => none⟩ [7]).1 := by
  have h := (C9_flash_restore_then_cleanup
    ⟨fun i => if i = 7 then
        some ⟨7, "", fun _ => none, "RelayDevice", false, 0, true,
          0, 0, 0, 0, 0, false, []⟩
      else none, fun _ => none⟩ 0 [7] 1 none none (fun _ => false) true true).2
    ⟨7, false, 0, true⟩ (by decide) (by decide)
  simpa using h
